import Mathlib

/-!
# Verification of the Hautū Waka build script (`build.py`)

A shallow embedding of the content-assembly engine of `build.py`:
the identifier normalizer (`make_id`), the cross-reference lookups
(Python dict comprehensions), the four section renderers
(`build_intro_html`, `build_tools_html`, `build_muscles_html`,
`build_sources_html`), the stage-overlay projector
(`build_stage_overlay_data`) and the template assembler (`build_html`).

Strings are Lean `String`s (lists of unicode scalar values).  Python's
`str.replace` is modelled by a left-to-right scanner (`replaceAux` /
`pyReplace`); `str.lower` and `str.title` are modelled on the ASCII
letters (Lean's `Char.toLower`/`Char.toUpper` are ASCII-only; the
input data of this repository only exercises ASCII case mapping).
Optional JSON fields read with `dict.get` are modelled as `Option String`
together with Python truthiness (`truthy`): absent (`none`) and present
but empty (`some ""`) are both falsy.  File I/O and `main` are out of
scope, as the specification states.
-/

/-- Python truthiness of an optional string field (`item.get("k")`):
`None` and the empty string are falsy. -/
def truthy : Option String → Bool
  | none => false
  | some s => !s.isEmpty

/-- Left-to-right scan implementing Python `str.replace` on character
lists: at each position, if the (nonempty) pattern `p` is a prefix of the
remaining input, emit the replacement `r` and skip past the matched
pattern; otherwise emit one character and continue.  The replacement is
not rescanned.  `fuel` makes the recursion structural; callers pass the
input length, which is always sufficient.  (Python's special case of an
empty pattern is not modelled; every pattern used in `build.py` is a
nonempty literal.) -/
def replaceAux (p r : List Char) : Nat → List Char → List Char
  | _, [] => []
  | 0, s => s
  | fuel + 1, c :: cs =>
    if p ≠ [] ∧ p.isPrefixOf (c :: cs) then
      r ++ replaceAux p r fuel ((c :: cs).drop p.length)
    else
      c :: replaceAux p r fuel cs

/-- Python `s.replace(pat, repl)` for a nonempty pattern. -/
def pyReplace (s pat repl : String) : String :=
  ⟨replaceAux pat.data repl.data s.data.length s.data⟩

/-- Substring occurrence test on character lists (`pat in s` in Python). -/
def occursAux (p : List Char) : List Char → Bool
  | [] => p.isPrefixOf ([] : List Char)
  | c :: cs => p.isPrefixOf (c :: cs) || occursAux p cs

/-- Substring occurrence test on strings. -/
def occursIn (pat s : String) : Bool :=
  occursAux pat.data s.data

/-- The apostrophe character (U+0027). -/
def aposChar : Char := Char.ofNat 39

/-- `make_id` (build.py line 33): convert a name to a URL-friendly ID.
`name.lower().replace(" ", "-").replace("(", "").replace(")", "")
.replace("/", "-").replace("'", "")`. -/
def make_id (name : String) : String :=
  pyReplace (pyReplace (pyReplace (pyReplace (pyReplace
    ⟨name.data.map Char.toLower⟩
    " " "-") "(" "") ")" "") "/" "-") (String.mk [aposChar]) ""

/-- The specification's reading of the normalizer, in the spec's order:
remove `(` and `)` entirely, replace `/` with `-`, remove apostrophes,
replace spaces with hyphens, lower-case the whole result. -/
def make_id_spec (name : String) : String :=
  (pyReplace (pyReplace (pyReplace (pyReplace (pyReplace
    name "(" "") ")" "") "/" "-") (String.mk [aposChar]) "") " " "-").data.map
      Char.toLower |> String.mk

/-- Characterwise substitution: what a single-character-pattern
`str.replace` does to one character. -/
def subChar (t : Char) (r : List Char) (c : Char) : List Char :=
  if c = t then r else [c]

/-! ## Data model (§3 of the spec, shapes read by build.py) -/

/-- One block of the introduction (`intro["sections"]` entries). -/
structure IntroSection where
  heading : String
  content : String
deriving DecidableEq

/-- The attribution block of the introduction. -/
structure Attribution where
  primary : String
  organisations : String
deriving DecidableEq

/-- The introduction record (`intro.json`).  `video` is optional and is
read with `intro.get("video")` (truthiness). -/
structure Intro where
  title : String
  subtitle : String
  hook : String
  sections : List IntroSection
  video : Option String
  attribution : Attribution
deriving DecidableEq

/-- A stage record (`stages.json`).  The hotspot descriptor is opaque
positional data passed through unchanged; it is modelled as a string
blob. -/
structure Stage where
  id : String
  name_maori : String
  name_english : String
  as_stage : String
  as_state : String
  reflection_questions : List String
  tools : List String
  hotspot : String
deriving DecidableEq

/-- A tool record (`tools.json`).  `video` is optional
(`tool.get("video")`). -/
structure Tool where
  id : String
  name : String
  description : String
  video : Option String
  stages : List String
  muscles : List String
deriving DecidableEq

/-- A muscle record inside a dimension (`muscles.json`). -/
structure Muscle where
  id : String
  name : String
  description : String
  tools : List String
deriving DecidableEq

/-- A dimension of the muscle taxonomy. -/
structure Dimension where
  id : String
  name : String
  name_english : String
  description : String
  muscles : List Muscle
deriving DecidableEq

/-- The muscle taxonomy (`muscles.json`): intro text plus dimensions. -/
structure MusclesData where
  intro : String
  dimensions : List Dimension
deriving DecidableEq

/-- A bibliography item (`sources.json`).  `title` models the key-existence
test `"title" in item` (so `some ""` is a present-but-empty title); the
remaining optional fields are read with `.get` and tested by truthiness. -/
structure Item where
  title : Option String
  name : String
  author : Option String
  role : Option String
  description : Option String
  link : Option String
deriving DecidableEq

/-- A source category: name, description, ordered items. -/
structure Category where
  name : String
  description : String
  items : List Item
deriving DecidableEq

/-- The source catalogue (`sources.json`). -/
structure Sources where
  intro : String
  categories : List Category
deriving DecidableEq

/-! ## Cross-reference resolver (build.py lines 250-251)

`tools_lookup = {t["id"]: t for t in tools}` — a Python dict
comprehension: keys inserted in input order, a later record with the same
key overwriting the earlier one.  Modelled as an association list with
overwriting insertion. -/

/-- Insert `(k, v)` into an association list, overwriting an existing
binding of `k` (Python dict assignment). -/
def dictInsert (k : String) (v : α) : List (String × α) → List (String × α)
  | [] => [(k, v)]
  | (k₀, v₀) :: rest =>
    if k₀ = k then (k, v) :: rest else (k₀, v₀) :: dictInsert k v rest

/-- The dict comprehension `{key(x): x for x in xs}`. -/
def dictOf (key : α → String) (xs : List α) : List (String × α) :=
  xs.foldl (fun d x => dictInsert (key x) x d) []

/-- Dict lookup `d[k]`, as an option. -/
def dictFind (d : List (String × α)) (k : String) : Option α :=
  (d.find? (fun p => p.1 = k)).map (fun p => p.2)

/-- Python `k in d`. -/
def dictContains (d : List (String × α)) (k : String) : Bool :=
  (dictFind d k).isSome

/-! ## Python `str.title` (ASCII model), used for muscle-link labels -/

/-- One step of Python `str.title`: a cased letter after a non-cased
character is upper-cased, a cased letter after a cased one is
lower-cased; non-letters pass through and reset the word state. -/
def titleAux : Bool → List Char → List Char
  | _, [] => []
  | prevCased, c :: cs =>
    if c.isAlpha then
      (if prevCased then Char.toLower c else Char.toUpper c) :: titleAux true cs
    else
      c :: titleAux false cs

/-- Python `s.title()` (ASCII letters). -/
def pyTitle (s : String) : String :=
  ⟨titleAux false s.data⟩

/-! ## Intro renderer (build.py lines 38-71) -/

/-- The per-section block of `build_intro_html`. -/
def intro_section_html (s : IntroSection) : String :=
  "\n        <div class=\"intro-block\">\n            <h3>" ++ s.heading ++
  "</h3>\n            <p>" ++ s.content ++ "</p>\n        </div>\n        "

/-- `build_intro_html` (build.py line 38). -/
def build_intro_html (intro : Intro) : String :=
  let sections_html := intro.sections.foldl (fun acc s => acc ++ intro_section_html s) ""
  let video_html :=
    if truthy intro.video then
      "\n        <div class=\"video-embed\">\n            <iframe src=\"" ++
      intro.video.getD "" ++
      "\" frameborder=\"0\" allowfullscreen></iframe>\n        </div>\n        "
    else ""
  "\n    <section id=\"introduction\" class=\"section section-intro\">\n        <div class=\"container\">\n            <h1>" ++
  intro.title ++ "</h1>\n            <p class=\"subtitle\">" ++ intro.subtitle ++
  "</p>\n            <p class=\"hook\">" ++ intro.hook ++ "</p>\n            " ++
  sections_html ++ "\n            " ++ video_html ++
  "\n            <div class=\"attribution\">\n                <p>" ++
  intro.attribution.primary ++ "</p>\n                <p>" ++
  intro.attribution.organisations ++
  "</p>\n            </div>\n        </div>\n    </section>\n    "

/-! ## Stage overlay projector (build.py lines 74-89) -/

/-- A denormalized `(id, name)` pair in the overlay payload. -/
structure OverlayTool where
  id : String
  name : String
deriving DecidableEq

/-- One denormalized stage record of the overlay payload. -/
structure OverlayStage where
  id : String
  name_maori : String
  name_english : String
  as_stage : String
  as_state : String
  reflection_questions : List String
  tools : List OverlayTool
  hotspot : String
deriving DecidableEq

/-- `build_stage_overlay_data` (build.py line 74), up to the final
`json.dumps` serialization: the list of denormalized stage records, in
stage input order.  The list comprehension
`[{"id": t, "name": tools_lookup[t]["name"]} for t in stage["tools"] if t in tools_lookup]`
is the filter-then-map below. -/
def build_stage_overlay_data (stages : List Stage) (tools_lookup : List (String × Tool)) :
    List OverlayStage :=
  stages.foldl (fun acc stage => acc ++ [{
    id := stage.id,
    name_maori := stage.name_maori,
    name_english := stage.name_english,
    as_stage := stage.as_stage,
    as_state := stage.as_state,
    reflection_questions := stage.reflection_questions,
    tools := (stage.tools.filter (fun t => dictContains tools_lookup t)).map
      (fun t => ⟨t, ((dictFind tools_lookup t).map Tool.name).getD ""⟩),
    hotspot := stage.hotspot }]) []

/-! ## Tools renderer (build.py lines 92-143) -/

/-- The stage-badge loop (build.py lines 97-101): one badge per
referenced stage id found in the lookup, in the listed order. -/
def stage_badges (stages_lookup : List (String × Stage)) (ids : List String) : String :=
  ids.foldl (fun acc sid =>
    match dictFind stages_lookup sid with
    | some stage => acc ++ "<span class=\"badge badge-stage\">" ++ stage.name_maori ++ "</span> "
    | none => acc) ""

/-- One muscle link (build.py lines 106-107): the label is the muscle id
with hyphens replaced by spaces, title-cased; the href is the anchor
derived from the id.  No muscle lookup is consulted. -/
def muscle_link_html (mid : String) : String :=
  "<a href=\"#muscle-" ++ mid ++ "\" class=\"muscle-link\">" ++
  pyTitle (pyReplace mid "-" " ") ++ "</a> "

/-- The muscle-link loop (build.py lines 104-107). -/
def muscle_links (ids : List String) : String :=
  ids.foldl (fun acc mid => acc ++ muscle_link_html mid) ""

/-- The optional video block of a tool entry (build.py lines 109-115). -/
def tool_video_html (tool : Tool) : String :=
  if truthy tool.video then
    "\n            <div class=\"video-embed\">\n                <iframe src=\"" ++
    tool.video.getD "" ++
    "\" frameborder=\"0\" allowfullscreen></iframe>\n            </div>\n            "
  else ""

/-- One tool entry (build.py lines 117-131). -/
def tool_entry (stages_lookup : List (String × Stage)) (tool : Tool) : String :=
  "\n        <div id=\"tool-" ++ tool.id ++ "\" class=\"tool-entry\">\n            <h3>" ++
  tool.name ++ "</h3>\n            <p class=\"description\">" ++ tool.description ++
  "</p>\n            " ++ tool_video_html tool ++
  "\n            <div class=\"meta\">\n                <div class=\"stages\">\n                    <span class=\"meta-label\">Used in:</span> " ++
  stage_badges stages_lookup tool.stages ++
  "\n                </div>\n                <div class=\"muscles\">\n                    <span class=\"meta-label\">Develops:</span> " ++
  muscle_links tool.muscles ++
  "\n                </div>\n            </div>\n        </div>\n        "

/-- `build_tools_html` (build.py line 92). -/
def build_tools_html (tools : List Tool) (stages_lookup : List (String × Stage)) : String :=
  "\n    <section id=\"tools\" class=\"section section-tools\">\n        <div class=\"container\">\n            <h2>Tools</h2>\n            <p class=\"section-intro\">Processes and methods that help navigate each stage. Click a muscle name to see what it means.</p>\n            <div class=\"tools-list\">\n                " ++
  tools.foldl (fun acc t => acc ++ tool_entry stages_lookup t) "" ++
  "\n            </div>\n        </div>\n    </section>\n    "

/-! ## Muscles renderer (build.py lines 146-192) -/

/-- The "no tools mapped" placeholder (build.py line 160). -/
def no_tools_span : String :=
  "<span class=\"no-tools\">No specific tools mapped</span>"

/-- One tool link inside a muscle entry (build.py line 158). -/
def tool_link_html (tid : String) (tool : Tool) : String :=
  "<a href=\"#tool-" ++ tid ++ "\" class=\"tool-link\">" ++ tool.name ++ "</a> "

/-- The tool-link logic of a muscle entry (build.py lines 154-160):
`if muscle["tools"]:` is Python list truthiness, so the placeholder is
emitted exactly when the reference list is empty; inside the loop an id
absent from the lookup contributes nothing. -/
def muscle_tool_links (tools_lookup : List (String × Tool)) (ids : List String) : String :=
  if !ids.isEmpty then
    ids.foldl (fun acc tid =>
      match dictFind tools_lookup tid with
      | some tool => acc ++ tool_link_html tid tool
      | none => acc) ""
  else
    no_tools_span

/-- One muscle entry (build.py lines 162-170). -/
def muscle_entry (tools_lookup : List (String × Tool)) (muscle : Muscle) : String :=
  "\n            <div id=\"muscle-" ++ muscle.id ++ "\" class=\"muscle-entry\">\n                <h4>" ++
  muscle.name ++ "</h4>\n                <p class=\"description\">" ++ muscle.description ++
  "</p>\n                <div class=\"meta\">\n                    <span class=\"meta-label\">Developed by:</span> " ++
  muscle_tool_links tools_lookup muscle.tools ++
  "\n                </div>\n            </div>\n            "

/-- One dimension block (build.py lines 172-180). -/
def dimension_html (tools_lookup : List (String × Tool)) (dimension : Dimension) : String :=
  "\n        <div class=\"dimension\" id=\"dimension-" ++ dimension.id ++
  "\">\n            <h3>" ++ dimension.name ++ " <span class=\"dimension-english\">(" ++
  dimension.name_english ++ ")</span></h3>\n            <p class=\"dimension-description\">" ++
  dimension.description ++ "</p>\n            <div class=\"muscles-list\">\n                " ++
  dimension.muscles.foldl (fun acc m => acc ++ muscle_entry tools_lookup m) "" ++
  "\n            </div>\n        </div>\n        "

/-- `build_muscles_html` (build.py line 146). -/
def build_muscles_html (muscles_data : MusclesData) (tools_lookup : List (String × Tool)) : String :=
  "\n    <section id=\"muscles\" class=\"section section-muscles\">\n        <div class=\"container\">\n            <h2>Muscles</h2>\n            <p class=\"section-intro\">" ++
  muscles_data.intro ++ "</p>\n            <div class=\"dimensions\">\n                " ++
  muscles_data.dimensions.foldl (fun acc d => acc ++ dimension_html tools_lookup d) "" ++
  "\n            </div>\n        </div>\n    </section>\n    "

/-! ## Sources renderer (build.py lines 195-243) -/

/-- One bibliography list item (build.py lines 201-221).  An item with a
`title` key is "a reading": its detail considers only `author`.  An item
without one displays `name` and resolves the detail by the priority
author, role, description (first truthy field wins).  A truthy `link`
wraps the display name in a hyperlink. -/
def item_li (item : Item) : String :=
  let nd : String × String :=
    match item.title with
    | some t =>
      (t, if truthy item.author then " — " ++ item.author.getD "" else "")
    | none =>
      (item.name,
        if truthy item.author then " — " ++ item.author.getD ""
        else if truthy item.role then " — " ++ item.role.getD ""
        else if truthy item.description then " — " ++ item.description.getD ""
        else "")
  if truthy item.link then
    "<li><a href=\"" ++ item.link.getD "" ++ "\" target=\"_blank\">" ++ nd.1 ++
    "</a>" ++ nd.2 ++ "</li>"
  else
    "<li>" ++ nd.1 ++ nd.2 ++ "</li>"

/-- One source category block (build.py lines 223-231). -/
def category_html (category : Category) : String :=
  "\n        <div class=\"source-category\">\n            <h3>" ++ category.name ++
  "</h3>\n            <p class=\"category-description\">" ++ category.description ++
  "</p>\n            <ul>\n                " ++
  category.items.foldl (fun acc it => acc ++ item_li it) "" ++
  "\n            </ul>\n        </div>\n        "

/-- `build_sources_html` (build.py line 195). -/
def build_sources_html (sources : Sources) : String :=
  "\n    <section id=\"sources\" class=\"section section-sources\">\n        <div class=\"container\">\n            <h2>Mycorrhizal Network</h2>\n            <p class=\"section-intro\">" ++
  sources.intro ++ "</p>\n            <div class=\"sources-grid\">\n                " ++
  sources.categories.foldl (fun acc c => acc ++ category_html c) "" ++
  "\n            </div>\n        </div>\n    </section>\n    "

/-! ## Assembler (build.py lines 246-273) -/

/-- The `INTRO_SECTION` placeholder token. -/
def INTRO_TOKEN : String := "\x7b\x7bINTRO_SECTION\x7d\x7d"

/-- The `TOOLS_SECTION` placeholder token. -/
def TOOLS_TOKEN : String := "\x7b\x7bTOOLS_SECTION\x7d\x7d"

/-- The `MUSCLES_SECTION` placeholder token. -/
def MUSCLES_TOKEN : String := "\x7b\x7bMUSCLES_SECTION\x7d\x7d"

/-- The `SOURCES_SECTION` placeholder token. -/
def SOURCES_TOKEN : String := "\x7b\x7bSOURCES_SECTION\x7d\x7d"

/-- The `STAGE_DATA` placeholder token. -/
def STAGE_DATA_TOKEN : String := "\x7b\x7bSTAGE_DATA\x7d\x7d"

/-- The placeholder-substitution chain of `build_html`
(build.py lines 267-273), over an already-read template and the five
generated outputs.  Each step is a full `str.replace` of one token. -/
def build_html (template intro_html tools_html muscles_html sources_html
    stage_data_js : String) : String :=
  let html := pyReplace template INTRO_TOKEN intro_html
  let html := pyReplace html TOOLS_TOKEN tools_html
  let html := pyReplace html MUSCLES_TOKEN muscles_html
  let html := pyReplace html SOURCES_TOKEN sources_html
  pyReplace html STAGE_DATA_TOKEN stage_data_js

/-- The left-brace character (U+007B), first character of every
placeholder token. -/
def lbraceChar : Char := Char.ofNat 123

/-- The link-wrapping step of `item_li` (build.py lines 218-221), with
the resolved display name and detail as arguments: a truthy `link` wraps
the name in a hyperlink opening in a new context, otherwise plain text;
the detail is appended after the name or link. -/
def li_wrap (item : Item) (name detail : String) : String :=
  if truthy item.link then
    "<li><a href=\"" ++ item.link.getD "" ++ "\" target=\"_blank\">" ++ name ++
    "</a>" ++ detail ++ "</li>"
  else
    "<li>" ++ name ++ detail ++ "</li>"

/-! ## Observable shells

Each renderer is the fixed markup of its section with the rendered
entry sequence spliced into a hole.  The shells below restate that fixed
markup explicitly, so that order preservation can be stated as
`renderer = shell (String.join (entries.map entryHtml))`. -/

/-- The fixed markup of the introduction section around the rendered
section-block sequence. -/
def intro_shell (intro : Intro) (sections_html : String) : String :=
  let video_html :=
    if truthy intro.video then
      "\n        <div class=\"video-embed\">\n            <iframe src=\"" ++
      intro.video.getD "" ++
      "\" frameborder=\"0\" allowfullscreen></iframe>\n        </div>\n        "
    else ""
  "\n    <section id=\"introduction\" class=\"section section-intro\">\n        <div class=\"container\">\n            <h1>" ++
  intro.title ++ "</h1>\n            <p class=\"subtitle\">" ++ intro.subtitle ++
  "</p>\n            <p class=\"hook\">" ++ intro.hook ++ "</p>\n            " ++
  sections_html ++ "\n            " ++ video_html ++
  "\n            <div class=\"attribution\">\n                <p>" ++
  intro.attribution.primary ++ "</p>\n                <p>" ++
  intro.attribution.organisations ++
  "</p>\n            </div>\n        </div>\n    </section>\n    "

/-- The fixed markup of the tools section around the rendered tool
entries. -/
def tools_shell (tools_html : String) : String :=
  "\n    <section id=\"tools\" class=\"section section-tools\">\n        <div class=\"container\">\n            <h2>Tools</h2>\n            <p class=\"section-intro\">Processes and methods that help navigate each stage. Click a muscle name to see what it means.</p>\n            <div class=\"tools-list\">\n                " ++
  tools_html ++
  "\n            </div>\n        </div>\n    </section>\n    "

/-- The fixed markup of one dimension block around its rendered muscle
entries. -/
def dimension_shell (dimension : Dimension) (muscles_html : String) : String :=
  "\n        <div class=\"dimension\" id=\"dimension-" ++ dimension.id ++
  "\">\n            <h3>" ++ dimension.name ++ " <span class=\"dimension-english\">(" ++
  dimension.name_english ++ ")</span></h3>\n            <p class=\"dimension-description\">" ++
  dimension.description ++ "</p>\n            <div class=\"muscles-list\">\n                " ++
  muscles_html ++
  "\n            </div>\n        </div>\n        "

/-- The fixed markup of the muscles section around the rendered
dimension blocks. -/
def muscles_shell (muscles_data : MusclesData) (dimensions_html : String) : String :=
  "\n    <section id=\"muscles\" class=\"section section-muscles\">\n        <div class=\"container\">\n            <h2>Muscles</h2>\n            <p class=\"section-intro\">" ++
  muscles_data.intro ++ "</p>\n            <div class=\"dimensions\">\n                " ++
  dimensions_html ++
  "\n            </div>\n        </div>\n    </section>\n    "

/-- The fixed markup of one source category block around its rendered
items. -/
def category_shell (category : Category) (items_html : String) : String :=
  "\n        <div class=\"source-category\">\n            <h3>" ++ category.name ++
  "</h3>\n            <p class=\"category-description\">" ++ category.description ++
  "</p>\n            <ul>\n                " ++
  items_html ++
  "\n            </ul>\n        </div>\n        "

/-- The fixed markup of the sources section around the rendered category
blocks. -/
def sources_shell (sources : Sources) (categories_html : String) : String :=
  "\n    <section id=\"sources\" class=\"section section-sources\">\n        <div class=\"container\">\n            <h2>Mycorrhizal Network</h2>\n            <p class=\"section-intro\">" ++
  sources.intro ++ "</p>\n            <div class=\"sources-grid\">\n                " ++
  categories_html ++
  "\n            </div>\n        </div>\n    </section>\n    "

/-! ## Concrete example records (used to instantiate theorems) -/

/-- An example stage record. -/
def exStage : Stage :=
  ⟨"s1", "Whai", "Follow", "as stage", "as state", ["q1"], ["t1", "t2"], "hotspot1"⟩

/-- An example stage lookup containing only `exStage`. -/
def exStagesLk : List (String × Stage) := [("s1", exStage)]

/-- A second stage record sharing `exStage`'s id. -/
def exStage2 : Stage :=
  ⟨"s1", "Kite", "See", "as stage 2", "as state 2", [], [], "hotspot2"⟩

/-- An example tool record. -/
def exTool : Tool := ⟨"t1", "Hammer", "builds", none, ["s1"], ["deep-listening"]⟩

/-- A second tool record sharing `exTool`'s id. -/
def exTool2 : Tool := ⟨"t1", "Saw", "cuts", none, [], []⟩

/-- An example tool lookup containing only `exTool`. -/
def exToolsLk : List (String × Tool) := [("t1", exTool)]

/-- An example bibliography item without a title key. -/
def exItem : Item := ⟨none, "N", none, some "R", some "D", none⟩

/-! ## Helper lemmas: strings and folds -/

theorem join_cons (s : String) (l : List String) :
    String.join (s :: l) = s ++ String.join l := by
  apply String.ext
  simp

theorem foldl_strAppend (f : β → String) (l : List β) (init : String) :
    l.foldl (fun acc x => acc ++ f x) init = init ++ String.join (l.map f) := by
  induction l generalizing init with
  | nil => simp [String.join]
  | cons x xs ih =>
    simp only [List.foldl_cons, List.map_cons, ih, join_cons]
    rw [String.append_assoc]

theorem foldl_listAppend (f : β → γ) (l : List β) (init : List γ) :
    l.foldl (fun acc x => acc ++ [f x]) init = init ++ l.map f := by
  induction l generalizing init with
  | nil => simp
  | cons x xs ih => simp [ih]
/-! ## Helper lemmas: dictionaries -/

theorem dictFind_nil (k : String) : dictFind ([] : List (String × α)) k = none := by
  simp [dictFind]

theorem dictFind_cons (a : String) (b : α) (d : List (String × α)) (k : String) :
    dictFind ((a, b) :: d) k = if a = k then some b else dictFind d k := by
  by_cases h : a = k <;> simp [dictFind, List.find?_cons, h]

theorem dictFind_dictInsert (k k' : String) (v : α) (d : List (String × α)) :
    dictFind (dictInsert k v d) k' = if k' = k then some v else dictFind d k' := by
  induction d with
  | nil =>
    simp only [dictInsert, dictFind_cons, dictFind_nil]
    by_cases h : k = k'
    · simp [h]
    · have h' : ¬ (k' = k) := fun e => h e.symm
      simp [h, h']
  | cons p rest ih =>
    obtain ⟨k₀, v₀⟩ := p
    simp only [dictInsert]
    by_cases h0 : k₀ = k
    · subst h0
      rw [if_pos rfl, dictFind_cons, dictFind_cons]
      by_cases h : k₀ = k'
      · subst h
        simp
      · have h' : ¬ (k' = k₀) := fun e => h e.symm
        simp [h, h']
    · rw [if_neg h0, dictFind_cons, dictFind_cons, ih]
      by_cases h : k₀ = k'
      · subst h
        simp [h0]
      · simp [h]

theorem dictOf_append (key : α → String) (xs : List α) (x : α) :
    dictOf key (xs ++ [x]) = dictInsert (key x) x (dictOf key xs) := by
  simp [dictOf]

/-- A dict comprehension maps a key to the LAST record bearing that key. -/
theorem dictFind_dictOf (key : α → String) (xs : List α) (k : String) :
    dictFind (dictOf key xs) k = xs.reverse.find? (fun x => key x = k) := by
  induction xs using List.reverseRecOn with
  | nil => simp [dictOf, dictFind]
  | append_singleton ys y ih =>
    rw [dictOf_append, dictFind_dictInsert]
    by_cases h : k = key y
    · have hy : key y = k := h.symm
      simp [hy, List.find?_cons]
    · have h2 : ¬ (key y = k) := fun he => h he.symm
      simp [h, h2, List.find?_cons, ih]

/-! ## Helper lemmas: the replace scanner -/

theorem replaceAux_nil (p r : List Char) (fuel : Nat) :
    replaceAux p r fuel [] = [] := by
  cases fuel <;> rfl

theorem replaceAux_congr_fuel (p r : List Char) :
    ∀ n (s : List Char), s.length ≤ n → ∀ fuel fuel', s.length ≤ fuel →
      s.length ≤ fuel' → replaceAux p r fuel s = replaceAux p r fuel' s := by
  intro n
  induction n with
  | zero =>
    intro s hs fuel fuel' _ _
    have hnil : s = [] := List.length_eq_zero.mp (Nat.le_zero.mp hs)
    subst hnil
    rw [replaceAux_nil, replaceAux_nil]
  | succ n ih =>
    intro s hs fuel fuel' h1 h2
    cases s with
    | nil => rw [replaceAux_nil, replaceAux_nil]
    | cons c cs =>
      cases fuel with
      | zero => simp at h1
      | succ f =>
        cases fuel' with
        | zero => simp at h2
        | succ f' =>
          simp only [replaceAux]
          by_cases hc : p ≠ [] ∧ p.isPrefixOf (c :: cs)
          · rw [if_pos hc, if_pos hc]
            have hp : 1 ≤ p.length := by
              cases p with
              | nil => exact absurd rfl hc.1
              | cons a as => simp
            simp only [List.length_cons] at hs h1 h2
            congr 1
            apply ih
            · simp only [List.length_drop, List.length_cons]
              omega
            · simp only [List.length_drop, List.length_cons]
              omega
            · simp only [List.length_drop, List.length_cons]
              omega
          · rw [if_neg hc, if_neg hc]
            simp only [List.length_cons] at hs h1 h2
            congr 1
            apply ih
            · omega
            · omega
            · omega

theorem replaceAux_hit (p r s : List Char) (fuel : Nat) (hp : p ≠ [])
    (hfuel : p.length + s.length ≤ fuel) :
    replaceAux p r fuel (p ++ s) = r ++ replaceAux p r s.length s := by
  cases p with
  | nil => exact absurd rfl hp
  | cons a as =>
    cases fuel with
    | zero => simp at hfuel
    | succ f =>
      show replaceAux (a :: as) r (f + 1) (a :: (as ++ s)) = _
      simp only [replaceAux]
      have hpre : (a :: as).isPrefixOf (a :: as ++ s) := by
        simp [List.isPrefixOf_iff_prefix]
      rw [if_pos ⟨hp, hpre⟩]
      congr 1
      have hdrop : (a :: (as ++ s)).drop (a :: as).length = s := by
        exact List.drop_left (a :: as) s
      rw [hdrop]
      apply replaceAux_congr_fuel _ _ s.length s le_rfl
      · simp only [List.length_cons] at hfuel
        omega
      · exact le_rfl

theorem replaceAux_skip (h : Char) (pt r : List Char) :
    ∀ (x s : List Char) (fuel : Nat), h ∉ x → (x ++ s).length ≤ fuel →
      replaceAux (h :: pt) r fuel (x ++ s) = x ++ replaceAux (h :: pt) r s.length s := by
  intro x
  induction x with
  | nil =>
    intro s fuel _ hf
    simp only [List.nil_append]
    exact replaceAux_congr_fuel _ _ s.length s le_rfl fuel s.length (by simp only [List.nil_append] at hf; exact hf) le_rfl
  | cons c cx ih =>
    intro s fuel hx hf
    cases fuel with
    | zero => simp at hf
    | succ f =>
      have hne : ¬ (h = c) := by
        intro he
        exact hx (by simp [he])
      show replaceAux (h :: pt) r (f + 1) (c :: (cx ++ s)) = _
      simp only [replaceAux]
      have hnp : ¬ ((h :: pt) ≠ [] ∧ (h :: pt).isPrefixOf (c :: (cx ++ s))) := by
        intro hcc
        have h2 := hcc.2
        rw [List.isPrefixOf_cons₂] at h2
        have h3 := (Bool.and_eq_true _ _).mp h2
        exact hne (beq_iff_eq.mp h3.1)
      rw [if_neg hnp]
      have hm : h ∉ cx := fun hmm => hx (List.mem_cons_of_mem _ hmm)
      rw [ih s f hm (by simp only [List.length_append, List.length_cons] at hf ⊢; omega)]
      rfl

theorem replaceAux_single (t : Char) (r : List Char) :
    ∀ (s : List Char) (fuel : Nat), s.length ≤ fuel →
      replaceAux [t] r fuel s = s.flatMap (subChar t r) := by
  intro s
  induction s with
  | nil =>
    intro fuel _
    rw [replaceAux_nil]
    rfl
  | cons c cs ih =>
    intro fuel hf
    cases fuel with
    | zero => simp at hf
    | succ f =>
      simp only [replaceAux]
      by_cases h : t = c
      · subst h
        have hc : ([t] ≠ []) ∧ ([t].isPrefixOf (t :: cs)) := by
          constructor
          · simp
          · rw [List.isPrefixOf_cons₂]
            simp
        rw [if_pos hc]
        have hdrop : (t :: cs).drop ([t] : List Char).length = cs := rfl
        rw [hdrop, ih f (by simp only [List.length_cons] at hf; omega)]
        simp [subChar]
      · have hc : ¬ (([t] ≠ []) ∧ ([t].isPrefixOf (c :: cs))) := by
          intro hcc
          have h2 := hcc.2
          rw [List.isPrefixOf_cons₂] at h2
          have h3 := (Bool.and_eq_true _ _).mp h2
          exact h (beq_iff_eq.mp h3.1)
        rw [if_neg hc, ih f (by simp only [List.length_cons] at hf; omega)]
        have h2 : ¬ (c = t) := fun e => h e.symm
        simp [subChar, h2]

/-! ## Helper lemmas: ASCII case mapping -/

theorem char_toNat_ofNat (n : Nat) (h : n < 55296) : (Char.ofNat n).toNat = n := by
  have hv : Nat.isValidChar n := Or.inl h
  rw [Char.ofNat, dif_pos hv]
  rfl

theorem toLower_def (c : Char) :
    Char.toLower c = if c.toNat ≥ 65 ∧ c.toNat ≤ 90 then Char.ofNat (c.toNat + 32) else c := rfl

/-- `str.lower` can only change letters: it never produces a character
with code point below 65 (in particular none of the characters removed or
replaced by `make_id`). -/
theorem toLower_ne_low (c t : Char) (ht : t.toNat < 65) (hc : c ≠ t) :
    Char.toLower c ≠ t := by
  rw [toLower_def]
  by_cases h : c.toNat ≥ 65 ∧ c.toNat ≤ 90
  · rw [if_pos h]
    intro he
    have h1 := congrArg Char.toNat he
    rw [char_toNat_ofNat (c.toNat + 32) (by omega)] at h1
    omega
  · rw [if_neg h]
    exact hc

theorem pyReplace_space (s : String) :
    (pyReplace s " " "-").data = s.data.flatMap (subChar ' ' ['-']) :=
  replaceAux_single ' ' ['-'] s.data s.data.length le_rfl

theorem pyReplace_lparen (s : String) :
    (pyReplace s "(" "").data = s.data.flatMap (subChar '(' []) :=
  replaceAux_single '(' [] s.data s.data.length le_rfl

theorem pyReplace_rparen (s : String) :
    (pyReplace s ")" "").data = s.data.flatMap (subChar ')' []) :=
  replaceAux_single ')' [] s.data s.data.length le_rfl

theorem pyReplace_slash (s : String) :
    (pyReplace s "/" "-").data = s.data.flatMap (subChar '/' ['-']) :=
  replaceAux_single '/' ['-'] s.data s.data.length le_rfl

theorem pyReplace_apos (s : String) :
    (pyReplace s (String.mk [aposChar]) "").data = s.data.flatMap (subChar aposChar []) :=
  replaceAux_single aposChar [] s.data s.data.length le_rfl

/-- The characterwise actions of `make_id` (lower-case first, then the
five substitutions) and of the specification's order (substitutions
first, lower-case last) agree on every character. -/
theorem make_id_char (c : Char) :
    List.flatMap (List.flatMap (List.flatMap
        (List.flatMap (subChar ' ' ['-'] (Char.toLower c)) (subChar '(' []))
        (subChar ')' [])) (subChar '/' ['-'])) (subChar aposChar [])
      = (List.flatMap (List.flatMap (List.flatMap
          (List.flatMap (subChar '(' [] c) (subChar ')' []))
          (subChar '/' ['-'])) (subChar aposChar []))
          (subChar ' ' ['-'])).map Char.toLower := by
  by_cases h1 : c = ' '
  · subst h1
    decide
  by_cases h2 : c = '('
  · subst h2
    decide
  by_cases h3 : c = ')'
  · subst h3
    decide
  by_cases h4 : c = '/'
  · subst h4
    decide
  by_cases h5 : c = aposChar
  · subst h5
    decide
  have t1 : Char.toLower c ≠ ' ' := toLower_ne_low c ' ' (by decide) h1
  have t2 : Char.toLower c ≠ '(' := toLower_ne_low c '(' (by decide) h2
  have t3 : Char.toLower c ≠ ')' := toLower_ne_low c ')' (by decide) h3
  have t4 : Char.toLower c ≠ '/' := toLower_ne_low c '/' (by decide) h4
  have t5 : Char.toLower c ≠ aposChar := toLower_ne_low c aposChar (by decide) h5
  simp [subChar, h1, h2, h3, h4, h5, t1, t2, t3, t4, t5, List.flatMap_cons]

/-- C3: for every input string the identifier normalizer terminates and
returns the string obtained by removing parentheses, replacing slashes
with hyphens, removing apostrophes, replacing spaces with hyphens, and
lower-casing the result (the operations commute, so the spec's order and
the code's order agree); the two normalization examples of the spec hold. -/
theorem make_id_matches_spec :
    (∀ s : String, make_id s = make_id_spec s) ∧
    make_id "Raupapa Take (Priority Plan)" = "raupapa-take-priority-plan" ∧
    make_id "Waka/Boat" = "waka-boat" := by
  refine ⟨?_, by decide, by decide⟩
  intro s
  apply String.ext
  unfold make_id make_id_spec
  simp only [pyReplace_apos, pyReplace_slash, pyReplace_rparen, pyReplace_lparen,
    pyReplace_space, List.flatMap_map, List.map_flatMap, List.flatMap_assoc]
  refine congrArg (List.flatMap s.data) (funext fun c => ?_)
  have h := make_id_char c
  simp only [List.flatMap_assoc, List.map_flatMap] at h ⊢
  exact h

/-! ## Decomposition lemmas for the renderers -/

theorem build_intro_html_eq (intro : Intro) :
    build_intro_html intro
      = intro_shell intro (String.join (intro.sections.map intro_section_html)) := by
  simp [build_intro_html, intro_shell, foldl_strAppend]

theorem build_tools_html_eq (tools : List Tool) (stages_lookup : List (String × Stage)) :
    build_tools_html tools stages_lookup
      = tools_shell (String.join (tools.map (tool_entry stages_lookup))) := by
  simp [build_tools_html, tools_shell, foldl_strAppend]

theorem dimension_html_eq (tools_lookup : List (String × Tool)) (d : Dimension) :
    dimension_html tools_lookup d
      = dimension_shell d (String.join (d.muscles.map (muscle_entry tools_lookup))) := by
  simp [dimension_html, dimension_shell, foldl_strAppend]

theorem build_muscles_html_eq (md : MusclesData) (tools_lookup : List (String × Tool)) :
    build_muscles_html md tools_lookup
      = muscles_shell md (String.join (md.dimensions.map (fun d =>
          dimension_shell d (String.join (d.muscles.map (muscle_entry tools_lookup)))))) := by
  simp [build_muscles_html, muscles_shell, foldl_strAppend, dimension_html_eq]

theorem category_html_eq (c : Category) :
    category_html c = category_shell c (String.join (c.items.map item_li)) := by
  simp [category_html, category_shell, foldl_strAppend]

theorem build_sources_html_eq (sources : Sources) :
    build_sources_html sources
      = sources_shell sources (String.join (sources.categories.map (fun c =>
          category_shell c (String.join (c.items.map item_li))))) := by
  simp [build_sources_html, sources_shell, foldl_strAppend, category_html_eq]

/-! ## Decomposition lemmas: badges, links and the overlay -/

theorem stage_badges_go (stages_lookup : List (String × Stage)) :
    ∀ (ids : List String) (init : String),
    List.foldl (fun acc sid =>
      match dictFind stages_lookup sid with
      | some stage => acc ++ "<span class=\"badge badge-stage\">" ++ stage.name_maori ++ "</span> "
      | none => acc) init ids
    = init ++ String.join (ids.filterMap (fun sid =>
        (dictFind stages_lookup sid).map (fun stage =>
          "<span class=\"badge badge-stage\">" ++ stage.name_maori ++ "</span> "))) := by
  intro ids
  induction ids with
  | nil =>
    intro init
    simp [String.join]
  | cons sid ids ih =>
    intro init
    simp only [List.foldl_cons, List.filterMap_cons]
    cases hg : dictFind stages_lookup sid with
    | none =>
      simp only [hg]
      rw [ih]
      simp
    | some stage =>
      simp only [hg, Option.map_some']
      rw [ih, join_cons]
      simp [String.append_assoc]

/-- The stage-badge loop renders exactly the resolving stage ids, in the
tool's listed order. -/
theorem stage_badges_eq (stages_lookup : List (String × Stage)) (ids : List String) :
    stage_badges stages_lookup ids
      = String.join (ids.filterMap (fun sid =>
          (dictFind stages_lookup sid).map (fun stage =>
            "<span class=\"badge badge-stage\">" ++ stage.name_maori ++ "</span> "))) := by
  show List.foldl _ _ ids = _
  rw [stage_badges_go]
  simp

theorem muscle_tool_links_fold (tools_lookup : List (String × Tool)) :
    ∀ (ids : List String) (init : String),
    List.foldl (fun acc tid =>
      match dictFind tools_lookup tid with
      | some tool => acc ++ tool_link_html tid tool
      | none => acc) init ids
    = init ++ String.join (ids.filterMap (fun tid =>
        (dictFind tools_lookup tid).map (tool_link_html tid))) := by
  intro ids
  induction ids with
  | nil =>
    intro init
    simp [String.join]
  | cons tid ids ih =>
    intro init
    simp only [List.foldl_cons, List.filterMap_cons]
    cases hg : dictFind tools_lookup tid with
    | none =>
      simp only [hg]
      rw [ih]
      simp
    | some tool =>
      simp only [hg, Option.map_some']
      rw [ih, join_cons]
      simp [String.append_assoc]

/-- For a nonempty tool-reference set, a muscle's link list renders
exactly the resolving tool ids, in the muscle's listed order. -/
theorem muscle_tool_links_of_ne (tools_lookup : List (String × Tool)) (ids : List String)
    (h : ids ≠ []) :
    muscle_tool_links tools_lookup ids
      = String.join (ids.filterMap (fun tid =>
          (dictFind tools_lookup tid).map (tool_link_html tid))) := by
  have he : ids.isEmpty = false := by
    cases ids with
    | nil => exact absurd rfl h
    | cons a l => rfl
  show (if !ids.isEmpty then _ else _) = _
  rw [he]
  show List.foldl _ _ ids = _
  rw [muscle_tool_links_fold]
  simp

/-- The muscle-link loop of a tool entry renders one link per referenced
muscle id, in the listed order. -/
theorem muscle_links_eq (ids : List String) :
    muscle_links ids = String.join (ids.map muscle_link_html) := by
  simp [muscle_links, foldl_strAppend]

theorem overlay_pairs_eq (tools_lookup : List (String × Tool)) (ids : List String) :
    (ids.filter (fun t => dictContains tools_lookup t)).map (fun t =>
      OverlayTool.mk t (((dictFind tools_lookup t).map Tool.name).getD ""))
    = ids.filterMap (fun t =>
        (dictFind tools_lookup t).map (fun tool => OverlayTool.mk t tool.name)) := by
  induction ids with
  | nil => simp
  | cons t ids ih =>
    cases hg : dictFind tools_lookup t with
    | none =>
      have hc : dictContains tools_lookup t = false := by simp [dictContains, hg]
      simp [List.filter_cons, List.filterMap_cons, hc, hg, ih]
    | some tool =>
      have hc : dictContains tools_lookup t = true := by simp [dictContains, hg]
      simp [List.filter_cons, List.filterMap_cons, hc, hg, ih]

/-! ## Helper lemmas: substring occurrence -/

theorem join_append (a b : List String) :
    String.join (a ++ b) = String.join a ++ String.join b := by
  apply String.ext
  simp

theorem occursAux_of_isPrefixOf (p s : List Char) (h : p.isPrefixOf s) :
    occursAux p s = true := by
  cases s with
  | nil =>
    simp only [occursAux]
    exact h
  | cons c cs =>
    simp [occursAux, h]

theorem occursAux_cons (p : List Char) (c : Char) (cs : List Char)
    (h : occursAux p cs = true) : occursAux p (c :: cs) = true := by
  simp [occursAux, h]

theorem occursAux_append_left (p : List Char) :
    ∀ (x s : List Char), occursAux p s = true → occursAux p (x ++ s) = true := by
  intro x
  induction x with
  | nil =>
    intro s h
    simpa using h
  | cons c cx ih =>
    intro s h
    exact occursAux_cons p c (cx ++ s) (ih s h)

theorem occursAux_append_right (p : List Char) :
    ∀ (s y : List Char), occursAux p s = true → occursAux p (s ++ y) = true := by
  intro s
  induction s with
  | nil =>
    intro y h
    simp only [occursAux] at h
    have hp : p = [] := by
      cases p with
      | nil => rfl
      | cons a as => simp at h
    subst hp
    cases y with
    | nil => simp [occursAux]
    | cons c cs => simp [occursAux]
  | cons c cs ih =>
    intro y h
    simp only [occursAux, Bool.or_eq_true] at h
    rcases h with h | h
    · apply occursAux_of_isPrefixOf
      rw [List.isPrefixOf_iff_prefix] at h ⊢
      exact h.trans (List.prefix_append (c :: cs) y)
    · exact occursAux_cons p c (cs ++ y) (ih y h)

theorem occursIn_self (s : String) : occursIn s s = true := by
  apply occursAux_of_isPrefixOf
  rw [List.isPrefixOf_iff_prefix]

theorem occursIn_append_left (pat x s : String) (h : occursIn pat s = true) :
    occursIn pat (x ++ s) = true := by
  show occursAux pat.data (x ++ s).data = true
  rw [String.data_append]
  exact occursAux_append_left pat.data x.data s.data h

theorem occursIn_append_right (pat s y : String) (h : occursIn pat s = true) :
    occursIn pat (s ++ y) = true := by
  show occursAux pat.data (s ++ y).data = true
  rw [String.data_append]
  exact occursAux_append_right pat.data s.data y.data h

theorem occursIn_join (pat : String) :
    ∀ (l : List String) (s : String), s ∈ l → occursIn pat s = true →
      occursIn pat (String.join l) = true := by
  intro l
  induction l with
  | nil =>
    intro s hs
    exact absurd hs (List.not_mem_nil s)
  | cons x xs ih =>
    intro s hs h
    rw [join_cons]
    rcases List.mem_cons.mp hs with rfl | hs2
    · exact occursIn_append_right pat s _ h
    · exact occursIn_append_left pat x _ (ih s hs2 h)

/-! ## Claim theorems -/

/-- C8: for every Renderer (Intro, Tools, Muscles, Sources) the order of
rendered entries equals the input order of the corresponding record
sequence: each renderer equals its fixed shell with the per-entry
fragments joined in input (map) order — Sections, Tools, Dimensions,
Muscles within a Dimension, Categories, and Items within a Category. -/
theorem renderers_preserve_input_order :
    (∀ intro : Intro, build_intro_html intro
        = intro_shell intro (String.join (intro.sections.map intro_section_html))) ∧
    (∀ (tools : List Tool) (stages_lookup : List (String × Stage)),
      build_tools_html tools stages_lookup
        = tools_shell (String.join (tools.map (tool_entry stages_lookup)))) ∧
    (∀ (md : MusclesData) (tools_lookup : List (String × Tool)),
      build_muscles_html md tools_lookup
        = muscles_shell md (String.join (md.dimensions.map (fun d =>
            dimension_shell d (String.join (d.muscles.map (muscle_entry tools_lookup))))))) ∧
    (∀ sources : Sources, build_sources_html sources
        = sources_shell sources (String.join (sources.categories.map (fun c =>
            category_shell c (String.join (c.items.map item_li)))))) :=
  ⟨build_intro_html_eq, build_tools_html_eq, build_muscles_html_eq, build_sources_html_eq⟩

/-- C5: the stage-overlay projector produces one denormalized record per
Stage, in Stage input order, carrying the Stage's id, both localized
names, both descriptive fields, the reflection-question sequence, the
hotspot descriptor unchanged, and the Stage's tool ids re-expanded into
`(id, name)` pairs for exactly the ids present in the tool lookup, in the
Stage's listed order, with unresolved ids dropped. -/
theorem stage_overlay_projection :
    ∀ (stages : List Stage) (tools_lookup : List (String × Tool)),
    build_stage_overlay_data stages tools_lookup
      = stages.map (fun stage =>
          { id := stage.id,
            name_maori := stage.name_maori,
            name_english := stage.name_english,
            as_stage := stage.as_stage,
            as_state := stage.as_state,
            reflection_questions := stage.reflection_questions,
            tools := stage.tools.filterMap (fun t =>
              (dictFind tools_lookup t).map (fun tool => OverlayTool.mk t tool.name)),
            hotspot := stage.hotspot }) := by
  intro stages tools_lookup
  simp [build_stage_overlay_data, foldl_listAppend, overlay_pairs_eq]

/-- C7: a Tool whose stage-reference list contains an id absent from the
stage lookup renders with that reference simply absent from its
stage-badge list, the resolving badges keeping the Tool's listed order,
and the build does not fail (the renderer is total and its output equals
the output for the pruned reference list). -/
theorem tools_renderer_dangling_stage :
    ∀ (stages_lookup : List (String × Stage)) (tools1 tools2 : List Tool) (tool : Tool)
      (ids1 ids2 : List String) (bad : String),
    dictFind stages_lookup bad = none →
    (build_tools_html (tools1 ++ { tool with stages := ids1 ++ bad :: ids2 } :: tools2)
          stages_lookup
        = build_tools_html (tools1 ++ { tool with stages := ids1 ++ ids2 } :: tools2)
          stages_lookup) ∧
    stage_badges stages_lookup (ids1 ++ bad :: ids2)
      = String.join ((ids1 ++ ids2).filterMap (fun sid =>
          (dictFind stages_lookup sid).map (fun stage =>
            "<span class=\"badge badge-stage\">" ++ stage.name_maori ++ "</span> "))) := by
  intro lk tools1 tools2 tool ids1 ids2 bad hbad
  have hfm : (ids1 ++ bad :: ids2).filterMap (fun sid =>
      (dictFind lk sid).map (fun stage =>
        "<span class=\"badge badge-stage\">" ++ stage.name_maori ++ "</span> "))
      = (ids1 ++ ids2).filterMap (fun sid =>
        (dictFind lk sid).map (fun stage =>
          "<span class=\"badge badge-stage\">" ++ stage.name_maori ++ "</span> ")) := by
    simp [List.filterMap_append, List.filterMap_cons, hbad]
  have hb : stage_badges lk (ids1 ++ bad :: ids2) = stage_badges lk (ids1 ++ ids2) := by
    rw [stage_badges_eq, stage_badges_eq, hfm]
  refine ⟨?_, ?_⟩
  · simp [build_tools_html_eq, tool_entry, tool_video_html, hb]
  · rw [stage_badges_eq, hfm]

/-- Witness for C7 at a concrete input: the lookup mapping only `"s1"`,
and a tool referencing `["s1", "missing"]`. -/
theorem tools_renderer_dangling_stage_witness :
    (dictFind exStagesLk "missing" = none) ∧
    ((build_tools_html ([] ++ { exTool with stages := ["s1"] ++ "missing" :: [] } :: [])
          exStagesLk
        = build_tools_html ([] ++ { exTool with stages := ["s1"] ++ [] } :: []) exStagesLk) ∧
      stage_badges exStagesLk (["s1"] ++ "missing" :: [])
        = String.join ((["s1"] ++ []).filterMap (fun sid =>
            (dictFind exStagesLk sid).map (fun (stage : Stage) =>
              "<span class=\"badge badge-stage\">" ++ stage.name_maori ++ "</span> ")))) :=
  ⟨by decide,
    tools_renderer_dangling_stage exStagesLk [] [] exTool ["s1"] [] "missing" (by decide)⟩

/-- A join of hyperlink fragments (each starting `<a`) is never the
"no tools mapped" placeholder (which starts `<s`). -/
theorem join_ne_span (l : List String) (h : ∀ s ∈ l, ∃ v, s.data = '<' :: 'a' :: v) :
    String.join l ≠ no_tools_span := by
  intro he
  have hd := congrArg String.data he
  rw [String.data_join] at hd
  cases l with
  | nil =>
    simp only [List.map_nil, List.flatten_nil] at hd
    exact absurd hd (by decide)
  | cons s rest =>
    obtain ⟨v, hv⟩ := h s (List.mem_cons_self s rest)
    simp only [List.map_cons, List.flatten_cons] at hd
    rw [hv] at hd
    rw [show no_tools_span.data
        = '<' :: 's' :: ("pan class=\"no-tools\">No specific tools mapped</span>" : String).data
      from rfl] at hd
    simp at hd

/-- C2: the Muscles Renderer emits the "no tools mapped" placeholder if
and only if the muscle's tool-reference set is empty; a non-empty set
renders the joined links of exactly the resolving ids (unresolved ids
skipped without placeholder fallback), and a non-empty set containing
only unresolved ids renders an empty — but present — reference list,
which differs from the placeholder. -/
theorem muscles_placeholder_iff_empty :
    ∀ (tools_lookup : List (String × Tool)) (ids : List String),
    (muscle_tool_links tools_lookup ids = no_tools_span ↔ ids = []) ∧
    (ids ≠ [] → muscle_tool_links tools_lookup ids
        = String.join (ids.filterMap (fun tid =>
            (dictFind tools_lookup tid).map (tool_link_html tid)))) ∧
    (ids ≠ [] → (∀ tid ∈ ids, dictFind tools_lookup tid = none) →
        muscle_tool_links tools_lookup ids = "" ∧ ("" : String) ≠ no_tools_span) := by
  intro lk ids
  refine ⟨⟨?_, ?_⟩, ?_, ?_⟩
  · intro h
    by_contra hne
    rw [muscle_tool_links_of_ne lk ids hne] at h
    apply join_ne_span _ ?_ h
    intro s hs
    rw [List.mem_filterMap] at hs
    obtain ⟨tid, _, hmap⟩ := hs
    cases hg : dictFind lk tid with
    | none =>
      rw [hg] at hmap
      simp at hmap
    | some tool =>
      rw [hg] at hmap
      simp only [Option.map_some'] at hmap
      have hs2 : tool_link_html tid tool = s := Option.some.inj hmap
      subst hs2
      exact ⟨_, rfl⟩
  · intro h
    subst h
    rfl
  · exact muscle_tool_links_of_ne lk ids
  · intro hne hall
    refine ⟨?_, by decide⟩
    rw [muscle_tool_links_of_ne lk ids hne]
    have hnil : ids.filterMap (fun tid => (dictFind lk tid).map (tool_link_html tid)) = [] := by
      rw [List.filterMap_eq_nil_iff]
      intro tid htid
      rw [hall tid htid]
      rfl
    rw [hnil]
    rfl

/-- Witness for C2 at a concrete input: an empty lookup and the
singleton reference list `["x"]`, whose only id is unresolved. -/
theorem muscles_placeholder_iff_empty_witness :
    (["x"] ≠ ([] : List String)) ∧
    (muscle_tool_links ([] : List (String × Tool)) ["x"] = "" ∧
      ("" : String) ≠ no_tools_span) :=
  ⟨by decide, (muscles_placeholder_iff_empty [] ["x"]).2.2 (by decide) (by decide)⟩

/-- C4: for every Tool and every Muscle id it references, the Tools
Renderer emits a muscle link whose label is the id with hyphens replaced
by spaces and each word title-cased, anchored at `#muscle-<id>` — for any
stage lookup and with no Muscle lookup in sight, so the link is emitted
whether or not the id exists in the Muscle taxonomy. -/
theorem tools_renderer_muscle_link_emitted :
    ∀ (tools : List Tool) (stages_lookup : List (String × Stage)) (tool : Tool)
      (mid : String), tool ∈ tools → mid ∈ tool.muscles →
    occursIn (muscle_link_html mid) (build_tools_html tools stages_lookup) = true ∧
    muscle_link_html mid
      = "<a href=\"#muscle-" ++ mid ++ "\" class=\"muscle-link\">" ++
        pyTitle (pyReplace mid "-" " ") ++ "</a> " := by
  intro tools lk tool mid htool hmid
  refine ⟨?_, rfl⟩
  rw [build_tools_html_eq]
  have h1 : occursIn (muscle_link_html mid) (muscle_links tool.muscles) = true := by
    rw [muscle_links_eq]
    exact occursIn_join _ _ _ (List.mem_map_of_mem muscle_link_html hmid) (occursIn_self _)
  have h2 : occursIn (muscle_link_html mid) (tool_entry lk tool) = true := by
    unfold tool_entry
    exact occursIn_append_right _ _ _ (occursIn_append_left _ _ _ h1)
  have h3 : occursIn (muscle_link_html mid)
      (String.join (tools.map (tool_entry lk))) = true :=
    occursIn_join _ _ _ (List.mem_map_of_mem (tool_entry lk) htool) h2
  unfold tools_shell
  exact occursIn_append_right _ _ _ (occursIn_append_left _ _ _ h3)

/-- Witness for C4 at a concrete input: the id `"deep-listening"`
referenced by `exTool`, with an empty stage lookup and no muscle taxonomy
anywhere. -/
theorem tools_renderer_muscle_link_emitted_witness :
    (exTool ∈ [exTool]) ∧ ("deep-listening" ∈ exTool.muscles) ∧
    (occursIn (muscle_link_html "deep-listening")
        (build_tools_html [exTool] ([] : List (String × Stage))) = true ∧
      muscle_link_html "deep-listening"
        = "<a href=\"#muscle-" ++ "deep-listening" ++ "\" class=\"muscle-link\">" ++
          pyTitle (pyReplace "deep-listening" "-" " ") ++ "</a> ") :=
  ⟨by decide, by decide,
    tools_renderer_muscle_link_emitted [exTool] [] exTool "deep-listening"
      (by decide) (by decide)⟩

/-- C9: an optional field that is present but equal to the empty string
is treated exactly like an absent field, because presence is tested by
truthiness: an Intro or Tool with video `""` renders no video block, and
a Source Item with link (or author, role, description) `""` renders as if
the field were missing. -/
theorem empty_string_field_equals_absent :
    (∀ intro : Intro, build_intro_html { intro with video := some "" }
        = build_intro_html { intro with video := none }) ∧
    (∀ (stages_lookup : List (String × Stage)) (tool : Tool),
      tool_entry stages_lookup { tool with video := some "" }
        = tool_entry stages_lookup { tool with video := none }) ∧
    (∀ item : Item, item_li { item with link := some "" }
        = item_li { item with link := none }) ∧
    (∀ item : Item, item_li { item with author := some "" }
        = item_li { item with author := none }) ∧
    (∀ item : Item, item_li { item with role := some "" }
        = item_li { item with role := none }) ∧
    (∀ item : Item, item_li { item with description := some "" }
        = item_li { item with description := none }) :=
  ⟨fun _ => rfl, fun _ _ => rfl, fun _ => rfl, fun _ => rfl, fun _ => rfl, fun _ => rfl⟩

theorem dictFind_dictOf_last (key : α → String) (pre post : List α) (x : α)
    (h : ∀ u ∈ post, key u ≠ key x) :
    dictFind (dictOf key (pre ++ x :: post)) (key x) = some x := by
  rw [dictFind_dictOf, List.reverse_append, List.reverse_cons]
  have h1 : post.reverse.find? (fun u => key u = key x) = none := by
    rw [List.find?_eq_none]
    intro u hu
    simp [h u (List.mem_reverse.mp hu)]
  have h2 : ([x] : List α).find? (fun u => key u = key x) = some x := by
    simp [List.find?]
  rw [List.find?_append, List.find?_append, h1, h2]
  rfl

/-- C10: when two Tools (or two Stages) share an id, the resolver's dict
comprehension maps that id to the record occurring last in input order,
so every resolved reference shows the last duplicate's data, while the
Tools section still renders one entry per record, in input order. -/
theorem duplicate_ids_resolve_to_last :
    ∀ (pre post : List Tool) (t : Tool) (spre spost : List Stage) (s : Stage)
      (stages_lookup : List (String × Stage)),
    ((∀ u ∈ post, u.id ≠ t.id) →
      dictFind (dictOf Tool.id (pre ++ t :: post)) t.id = some t) ∧
    ((∀ u ∈ spost, u.id ≠ s.id) →
      dictFind (dictOf Stage.id (spre ++ s :: spost)) s.id = some s) ∧
    (build_tools_html (pre ++ t :: post) stages_lookup
      = tools_shell (String.join ((pre ++ t :: post).map (tool_entry stages_lookup)))) :=
  fun pre post t spre spost s stages_lookup =>
    ⟨fun h => dictFind_dictOf_last Tool.id pre post t h,
     fun h => dictFind_dictOf_last Stage.id spre spost s h,
     build_tools_html_eq (pre ++ t :: post) stages_lookup⟩

/-- Witness for C10 at a concrete input: `exTool` and `exTool2` share id
`"t1"`, `exStage` and `exStage2` share id `"s1"`; the lookups resolve to
the later record and the Tools section still renders both entries. -/
theorem duplicate_ids_resolve_to_last_witness :
    (dictFind (dictOf Tool.id ([exTool] ++ exTool2 :: [])) exTool2.id = some exTool2) ∧
    (dictFind (dictOf Stage.id ([exStage] ++ exStage2 :: [])) exStage2.id = some exStage2) ∧
    (build_tools_html ([exTool] ++ exTool2 :: []) exStagesLk
      = tools_shell (String.join (([exTool] ++ exTool2 :: []).map (tool_entry exStagesLk)))) :=
  ⟨(duplicate_ids_resolve_to_last [exTool] [] exTool2 [exStage] [] exStage2 exStagesLk).1
      (by decide),
   (duplicate_ids_resolve_to_last [exTool] [] exTool2 [exStage] [] exStage2 exStagesLk).2.1
      (by decide),
   (duplicate_ids_resolve_to_last [exTool] [] exTool2 [exStage] [] exStage2 exStagesLk).2.2⟩

/-- C1 counterexample: an Item with a `title` key, no `author`, and a
truthy `role` renders with NO detail at all — the role value does not
occur anywhere in its rendering — contradicting the claim that the
{author, role, description} priority applies regardless of whether the
display name comes from a title field. -/
theorem sources_title_item_ignores_role :
    item_li { title := some "T", name := "N", author := none, role := some "RoleVal",
              description := none, link := none }
      = "<li>T</li>" ∧
    occursIn "RoleVal"
      (item_li { title := some "T", name := "N", author := none, role := some "RoleVal",
                 description := none, link := none }) = false := by
  exact ⟨rfl, by decide⟩

/-- C1 (amended): for a Source Item whose display name comes from the
`name` field (no `title` key), the optional detail is resolved by the
priority order author, role, description — the first truthy field wins
and at most one detail is shown; for an Item with a `title` key only the
`author` field is consulted: a truthy author renders as the detail and
role/description are ignored. -/
theorem sources_item_detail_priority :
    ∀ item : Item,
    (∀ t, item.title = some t →
      (truthy item.author = true →
        item_li item = li_wrap item t (" — " ++ item.author.getD "")) ∧
      (truthy item.author = false → item_li item = li_wrap item t "")) ∧
    (item.title = none →
      (truthy item.author = true →
        item_li item = li_wrap item item.name (" — " ++ item.author.getD "")) ∧
      (truthy item.author = false → truthy item.role = true →
        item_li item = li_wrap item item.name (" — " ++ item.role.getD "")) ∧
      (truthy item.author = false → truthy item.role = false →
        truthy item.description = true →
        item_li item = li_wrap item item.name (" — " ++ item.description.getD "")) ∧
      (truthy item.author = false → truthy item.role = false →
        truthy item.description = false →
        item_li item = li_wrap item item.name "")) := by
  intro item
  constructor
  · intro t ht
    constructor
    · intro ha
      simp [item_li, li_wrap, ht, ha]
    · intro ha
      simp [item_li, li_wrap, ht, ha]
  · intro ht
    refine ⟨?_, ?_, ?_, ?_⟩
    · intro ha
      simp [item_li, li_wrap, ht, ha]
    · intro ha hr
      simp [item_li, li_wrap, ht, ha, hr]
    · intro ha hr hd
      simp [item_li, li_wrap, ht, ha, hr, hd]
    · intro ha hr hd
      simp [item_li, li_wrap, ht, ha, hr, hd]

/-- Witness for the amended C1 at a concrete input: `exItem` has no
title, no author, and a truthy role, so the role renders as its detail. -/
theorem sources_item_detail_priority_witness :
    exItem.title = none ∧ truthy exItem.author = false ∧ truthy exItem.role = true ∧
    item_li exItem = li_wrap exItem exItem.name (" — " ++ exItem.role.getD "") :=
  ⟨rfl, rfl, rfl, ((sources_item_detail_priority exItem).2 rfl).2.1 rfl rfl⟩

/-! ## Assembler lemmas -/

theorem replaceAux_no_head (h : Char) (pt r s : List Char) (fuel : Nat)
    (hs : h ∉ s) (hf : s.length ≤ fuel) :
    replaceAux (h :: pt) r fuel s = s := by
  have hx := replaceAux_skip h pt r s [] fuel hs
    (by simp only [List.append_nil]; exact hf)
  simp only [List.append_nil, List.length_nil, replaceAux_nil] at hx
  exact hx

theorem replaceAux_skip_token (p2 p3 : Char) (pr r : List Char)
    (t2 t3 : Char) (tr : List Char) (s : List Char) (fuel : Nat)
    (hne : p2 ≠ t2 ∨ p3 ≠ t3) (hbr : lbraceChar ∉ t2 :: t3 :: tr)
    (hfuel : (lbraceChar :: lbraceChar :: t2 :: t3 :: (tr ++ s)).length ≤ fuel) :
    replaceAux (lbraceChar :: lbraceChar :: p2 :: p3 :: pr) r fuel
        (lbraceChar :: lbraceChar :: t2 :: t3 :: (tr ++ s))
      = (lbraceChar :: lbraceChar :: t2 :: t3 :: tr)
          ++ replaceAux (lbraceChar :: lbraceChar :: p2 :: p3 :: pr) r s.length s := by
  cases fuel with
  | zero => simp at hfuel
  | succ f =>
    simp only [replaceAux]
    have hc1 : ¬ ((lbraceChar :: lbraceChar :: p2 :: p3 :: pr) ≠ [] ∧
        (lbraceChar :: lbraceChar :: p2 :: p3 :: pr).isPrefixOf
          (lbraceChar :: lbraceChar :: t2 :: t3 :: (tr ++ s))) := by
      intro hcc
      have h2 := hcc.2
      simp only [List.isPrefixOf_cons₂, Bool.and_eq_true, beq_iff_eq] at h2
      rcases hne with hne | hne
      · exact hne h2.2.2.1
      · exact hne h2.2.2.2.1
    rw [if_neg hc1]
    cases f with
    | zero => simp at hfuel
    | succ f2 =>
      simp only [replaceAux]
      have hlb2 : ¬ (lbraceChar = t2) := by
        intro he
        exact hbr (by rw [he]; exact List.mem_cons_self _ _)
      have hc2 : ¬ ((lbraceChar :: lbraceChar :: p2 :: p3 :: pr) ≠ [] ∧
          (lbraceChar :: lbraceChar :: p2 :: p3 :: pr).isPrefixOf
            (lbraceChar :: t2 :: t3 :: (tr ++ s))) := by
        intro hcc
        have h2 := hcc.2
        simp only [List.isPrefixOf_cons₂, Bool.and_eq_true, beq_iff_eq] at h2
        exact hlb2 h2.2.1
      rw [if_neg hc2]
      have hskip := replaceAux_skip lbraceChar (lbraceChar :: p2 :: p3 :: pr) r
          (t2 :: t3 :: tr) s f2 hbr
          (by simp only [List.length_append, List.length_cons] at hfuel ⊢; omega)
      rw [show (t2 :: t3 :: (tr ++ s)) = (t2 :: t3 :: tr) ++ s from rfl, hskip]
      rfl

theorem pyReplace_no_head (s pat repl : String) (pd : List Char)
    (hpat : pat.data = lbraceChar :: pd) (hs : lbraceChar ∉ s.data) :
    pyReplace s pat repl = s := by
  apply String.ext
  show replaceAux pat.data repl.data s.data.length s.data = s.data
  rw [hpat]
  exact replaceAux_no_head lbraceChar pd repl.data s.data s.data.length hs le_rfl

theorem pyReplace_hit₁ (a b pat repl : String) (pd : List Char)
    (hpat : pat.data = lbraceChar :: pd)
    (ha : lbraceChar ∉ a.data) (hb : lbraceChar ∉ b.data) :
    pyReplace (a ++ pat ++ b) pat repl = a ++ repl ++ b := by
  apply String.ext
  show replaceAux pat.data repl.data (a ++ pat ++ b).data.length (a ++ pat ++ b).data
      = (a ++ repl ++ b).data
  simp only [String.data_append, List.append_assoc]
  rw [hpat]
  rw [replaceAux_skip lbraceChar pd repl.data a.data ((lbraceChar :: pd) ++ b.data) _ ha
    le_rfl]
  rw [replaceAux_hit (lbraceChar :: pd) repl.data b.data _ (by simp)
    (by simp [List.length_append]; omega)]
  rw [replaceAux_no_head lbraceChar pd repl.data b.data _ hb le_rfl]

theorem pyReplace_hits₂ (a b c pat repl : String) (pd : List Char)
    (hpat : pat.data = lbraceChar :: pd)
    (ha : lbraceChar ∉ a.data) (hb : lbraceChar ∉ b.data) (hc : lbraceChar ∉ c.data) :
    pyReplace (a ++ pat ++ b ++ pat ++ c) pat repl = a ++ repl ++ b ++ repl ++ c := by
  apply String.ext
  show replaceAux pat.data repl.data (a ++ pat ++ b ++ pat ++ c).data.length
      (a ++ pat ++ b ++ pat ++ c).data = (a ++ repl ++ b ++ repl ++ c).data
  simp only [String.data_append, List.append_assoc]
  rw [hpat]
  rw [replaceAux_skip lbraceChar pd repl.data a.data
    ((lbraceChar :: pd) ++ (b.data ++ ((lbraceChar :: pd) ++ c.data))) _ ha le_rfl]
  rw [replaceAux_hit (lbraceChar :: pd) repl.data
    (b.data ++ ((lbraceChar :: pd) ++ c.data)) _ (by simp) (by simp [List.length_append]; omega)]
  rw [replaceAux_skip lbraceChar pd repl.data b.data ((lbraceChar :: pd) ++ c.data) _ hb
    le_rfl]
  rw [replaceAux_hit (lbraceChar :: pd) repl.data c.data _ (by simp)
    (by simp [List.length_append]; omega)]
  rw [replaceAux_no_head lbraceChar pd repl.data c.data _ hc le_rfl]

theorem pyReplace_ne_token₁ (a b tok pat repl : String) (p2 p3 t2 t3 : Char)
    (pr tr : List Char)
    (hpat : pat.data = lbraceChar :: lbraceChar :: p2 :: p3 :: pr)
    (htok : tok.data = lbraceChar :: lbraceChar :: t2 :: t3 :: tr)
    (hne : p2 ≠ t2 ∨ p3 ≠ t3) (hbr : lbraceChar ∉ t2 :: t3 :: tr)
    (ha : lbraceChar ∉ a.data) (hb : lbraceChar ∉ b.data) :
    pyReplace (a ++ tok ++ b) pat repl = a ++ tok ++ b := by
  apply String.ext
  show replaceAux pat.data repl.data (a ++ tok ++ b).data.length (a ++ tok ++ b).data
      = (a ++ tok ++ b).data
  simp only [String.data_append, List.append_assoc]
  rw [hpat, htok]
  rw [show ((lbraceChar :: lbraceChar :: t2 :: t3 :: tr) ++ b.data)
      = lbraceChar :: lbraceChar :: t2 :: t3 :: (tr ++ b.data) from rfl]
  rw [replaceAux_skip lbraceChar (lbraceChar :: p2 :: p3 :: pr) repl.data a.data
    (lbraceChar :: lbraceChar :: t2 :: t3 :: (tr ++ b.data)) _ ha le_rfl]
  rw [replaceAux_skip_token p2 p3 pr repl.data t2 t3 tr b.data _ hne hbr le_rfl]
  rw [replaceAux_no_head lbraceChar (lbraceChar :: p2 :: p3 :: pr) repl.data b.data _ hb
    le_rfl]
  simp

theorem pyReplace_ne_token₂ (a b c tok pat repl : String) (p2 p3 t2 t3 : Char)
    (pr tr : List Char)
    (hpat : pat.data = lbraceChar :: lbraceChar :: p2 :: p3 :: pr)
    (htok : tok.data = lbraceChar :: lbraceChar :: t2 :: t3 :: tr)
    (hne : p2 ≠ t2 ∨ p3 ≠ t3) (hbr : lbraceChar ∉ t2 :: t3 :: tr)
    (ha : lbraceChar ∉ a.data) (hb : lbraceChar ∉ b.data) (hc : lbraceChar ∉ c.data) :
    pyReplace (a ++ tok ++ b ++ tok ++ c) pat repl = a ++ tok ++ b ++ tok ++ c := by
  apply String.ext
  show replaceAux pat.data repl.data (a ++ tok ++ b ++ tok ++ c).data.length
      (a ++ tok ++ b ++ tok ++ c).data = (a ++ tok ++ b ++ tok ++ c).data
  simp only [String.data_append, List.append_assoc]
  rw [hpat, htok]
  rw [show ((lbraceChar :: lbraceChar :: t2 :: t3 :: tr)
        ++ (b.data ++ ((lbraceChar :: lbraceChar :: t2 :: t3 :: tr) ++ c.data)))
      = lbraceChar :: lbraceChar :: t2 :: t3 ::
        (tr ++ (b.data ++ ((lbraceChar :: lbraceChar :: t2 :: t3 :: tr) ++ c.data)))
      from rfl]
  rw [replaceAux_skip lbraceChar (lbraceChar :: p2 :: p3 :: pr) repl.data a.data
    (lbraceChar :: lbraceChar :: t2 :: t3 ::
      (tr ++ (b.data ++ ((lbraceChar :: lbraceChar :: t2 :: t3 :: tr) ++ c.data)))) _ ha
    le_rfl]
  rw [replaceAux_skip_token p2 p3 pr repl.data t2 t3 tr
    (b.data ++ ((lbraceChar :: lbraceChar :: t2 :: t3 :: tr) ++ c.data)) _ hne hbr le_rfl]
  rw [replaceAux_skip lbraceChar (lbraceChar :: p2 :: p3 :: pr) repl.data b.data
    ((lbraceChar :: lbraceChar :: t2 :: t3 :: tr) ++ c.data) _ hb le_rfl]
  rw [show ((lbraceChar :: lbraceChar :: t2 :: t3 :: tr) ++ c.data)
      = lbraceChar :: lbraceChar :: t2 :: t3 :: (tr ++ c.data) from rfl]
  rw [replaceAux_skip_token p2 p3 pr repl.data t2 t3 tr c.data _ hne hbr le_rfl]
  rw [replaceAux_no_head lbraceChar (lbraceChar :: p2 :: p3 :: pr) repl.data c.data _ hc
    le_rfl]
  simp

/-- C6: the Assembler replaces every occurrence of each of the five
placeholder tokens with the same corresponding generated output (a global
textual substitution per token — a template holding a token twice gets
both occurrences replaced identically), and a template lacking a token
still assembles without failure, the output simply not containing that
token's content.  The hypotheses say that the surrounding template text
and the generated fragments contain no left-brace character, as real
templates and generated HTML do. -/
theorem assembler_global_token_substitution :
    ∀ (a b c i t m s d : String),
    lbraceChar ∉ a.data → lbraceChar ∉ b.data → lbraceChar ∉ c.data →
    lbraceChar ∉ i.data → lbraceChar ∉ t.data → lbraceChar ∉ m.data →
    lbraceChar ∉ s.data → lbraceChar ∉ d.data →
    (build_html (a ++ INTRO_TOKEN ++ b ++ INTRO_TOKEN ++ c) i t m s d
        = a ++ i ++ b ++ i ++ c) ∧
    (build_html (a ++ TOOLS_TOKEN ++ b ++ TOOLS_TOKEN ++ c) i t m s d
        = a ++ t ++ b ++ t ++ c) ∧
    (build_html (a ++ MUSCLES_TOKEN ++ b ++ MUSCLES_TOKEN ++ c) i t m s d
        = a ++ m ++ b ++ m ++ c) ∧
    (build_html (a ++ SOURCES_TOKEN ++ b ++ SOURCES_TOKEN ++ c) i t m s d
        = a ++ s ++ b ++ s ++ c) ∧
    (build_html (a ++ STAGE_DATA_TOKEN ++ b ++ STAGE_DATA_TOKEN ++ c) i t m s d
        = a ++ d ++ b ++ d ++ c) ∧
    (build_html (a ++ TOOLS_TOKEN ++ b) i t m s d = a ++ t ++ b) := by
  intro a b c i t m s d ha hb hc hi ht hm hs hd
  have hI : INTRO_TOKEN.data
      = lbraceChar :: lbraceChar :: 'I' :: 'N' :: "TRO_SECTION\x7d\x7d".data := rfl
  have hT : TOOLS_TOKEN.data
      = lbraceChar :: lbraceChar :: 'T' :: 'O' :: "OLS_SECTION\x7d\x7d".data := rfl
  have hM : MUSCLES_TOKEN.data
      = lbraceChar :: lbraceChar :: 'M' :: 'U' :: "SCLES_SECTION\x7d\x7d".data := rfl
  have hS : SOURCES_TOKEN.data
      = lbraceChar :: lbraceChar :: 'S' :: 'O' :: "URCES_SECTION\x7d\x7d".data := rfl
  have hD : STAGE_DATA_TOKEN.data
      = lbraceChar :: lbraceChar :: 'S' :: 'T' :: "AGE_DATA\x7d\x7d".data := rfl
  have hbrT : lbraceChar ∉ 'T' :: 'O' :: "OLS_SECTION\x7d\x7d".data := by decide
  have hbrM : lbraceChar ∉ 'M' :: 'U' :: "SCLES_SECTION\x7d\x7d".data := by decide
  have hbrS : lbraceChar ∉ 'S' :: 'O' :: "URCES_SECTION\x7d\x7d".data := by decide
  have hbrD : lbraceChar ∉ 'S' :: 'T' :: "AGE_DATA\x7d\x7d".data := by decide
  refine ⟨?_, ?_, ?_, ?_, ?_, ?_⟩
  · show pyReplace (pyReplace (pyReplace (pyReplace (pyReplace
        (a ++ INTRO_TOKEN ++ b ++ INTRO_TOKEN ++ c) INTRO_TOKEN i)
        TOOLS_TOKEN t) MUSCLES_TOKEN m) SOURCES_TOKEN s) STAGE_DATA_TOKEN d
      = a ++ i ++ b ++ i ++ c
    rw [pyReplace_hits₂ a b c INTRO_TOKEN i _ hI ha hb hc]
    have hfree : lbraceChar ∉ (a ++ i ++ b ++ i ++ c).data := by
      simp [String.data_append, List.mem_append, ha, hb, hc, hi]
    rw [pyReplace_no_head _ TOOLS_TOKEN t _ hT hfree,
        pyReplace_no_head _ MUSCLES_TOKEN m _ hM hfree,
        pyReplace_no_head _ SOURCES_TOKEN s _ hS hfree,
        pyReplace_no_head _ STAGE_DATA_TOKEN d _ hD hfree]
  · show pyReplace (pyReplace (pyReplace (pyReplace (pyReplace
        (a ++ TOOLS_TOKEN ++ b ++ TOOLS_TOKEN ++ c) INTRO_TOKEN i)
        TOOLS_TOKEN t) MUSCLES_TOKEN m) SOURCES_TOKEN s) STAGE_DATA_TOKEN d
      = a ++ t ++ b ++ t ++ c
    rw [pyReplace_ne_token₂ a b c TOOLS_TOKEN INTRO_TOKEN i 'I' 'N' 'T' 'O' _ _
      hI hT (Or.inl (by decide)) hbrT ha hb hc]
    rw [pyReplace_hits₂ a b c TOOLS_TOKEN t _ hT ha hb hc]
    have hfree : lbraceChar ∉ (a ++ t ++ b ++ t ++ c).data := by
      simp [String.data_append, List.mem_append, ha, hb, hc, ht]
    rw [pyReplace_no_head _ MUSCLES_TOKEN m _ hM hfree,
        pyReplace_no_head _ SOURCES_TOKEN s _ hS hfree,
        pyReplace_no_head _ STAGE_DATA_TOKEN d _ hD hfree]
  · show pyReplace (pyReplace (pyReplace (pyReplace (pyReplace
        (a ++ MUSCLES_TOKEN ++ b ++ MUSCLES_TOKEN ++ c) INTRO_TOKEN i)
        TOOLS_TOKEN t) MUSCLES_TOKEN m) SOURCES_TOKEN s) STAGE_DATA_TOKEN d
      = a ++ m ++ b ++ m ++ c
    rw [pyReplace_ne_token₂ a b c MUSCLES_TOKEN INTRO_TOKEN i 'I' 'N' 'M' 'U' _ _
      hI hM (Or.inl (by decide)) hbrM ha hb hc]
    rw [pyReplace_ne_token₂ a b c MUSCLES_TOKEN TOOLS_TOKEN t 'T' 'O' 'M' 'U' _ _
      hT hM (Or.inl (by decide)) hbrM ha hb hc]
    rw [pyReplace_hits₂ a b c MUSCLES_TOKEN m _ hM ha hb hc]
    have hfree : lbraceChar ∉ (a ++ m ++ b ++ m ++ c).data := by
      simp [String.data_append, List.mem_append, ha, hb, hc, hm]
    rw [pyReplace_no_head _ SOURCES_TOKEN s _ hS hfree,
        pyReplace_no_head _ STAGE_DATA_TOKEN d _ hD hfree]
  · show pyReplace (pyReplace (pyReplace (pyReplace (pyReplace
        (a ++ SOURCES_TOKEN ++ b ++ SOURCES_TOKEN ++ c) INTRO_TOKEN i)
        TOOLS_TOKEN t) MUSCLES_TOKEN m) SOURCES_TOKEN s) STAGE_DATA_TOKEN d
      = a ++ s ++ b ++ s ++ c
    rw [pyReplace_ne_token₂ a b c SOURCES_TOKEN INTRO_TOKEN i 'I' 'N' 'S' 'O' _ _
      hI hS (Or.inl (by decide)) hbrS ha hb hc]
    rw [pyReplace_ne_token₂ a b c SOURCES_TOKEN TOOLS_TOKEN t 'T' 'O' 'S' 'O' _ _
      hT hS (Or.inl (by decide)) hbrS ha hb hc]
    rw [pyReplace_ne_token₂ a b c SOURCES_TOKEN MUSCLES_TOKEN m 'M' 'U' 'S' 'O' _ _
      hM hS (Or.inl (by decide)) hbrS ha hb hc]
    rw [pyReplace_hits₂ a b c SOURCES_TOKEN s _ hS ha hb hc]
    have hfree : lbraceChar ∉ (a ++ s ++ b ++ s ++ c).data := by
      simp [String.data_append, List.mem_append, ha, hb, hc, hs]
    rw [pyReplace_no_head _ STAGE_DATA_TOKEN d _ hD hfree]
  · show pyReplace (pyReplace (pyReplace (pyReplace (pyReplace
        (a ++ STAGE_DATA_TOKEN ++ b ++ STAGE_DATA_TOKEN ++ c) INTRO_TOKEN i)
        TOOLS_TOKEN t) MUSCLES_TOKEN m) SOURCES_TOKEN s) STAGE_DATA_TOKEN d
      = a ++ d ++ b ++ d ++ c
    rw [pyReplace_ne_token₂ a b c STAGE_DATA_TOKEN INTRO_TOKEN i 'I' 'N' 'S' 'T' _ _
      hI hD (Or.inl (by decide)) hbrD ha hb hc]
    rw [pyReplace_ne_token₂ a b c STAGE_DATA_TOKEN TOOLS_TOKEN t 'T' 'O' 'S' 'T' _ _
      hT hD (Or.inl (by decide)) hbrD ha hb hc]
    rw [pyReplace_ne_token₂ a b c STAGE_DATA_TOKEN MUSCLES_TOKEN m 'M' 'U' 'S' 'T' _ _
      hM hD (Or.inl (by decide)) hbrD ha hb hc]
    rw [pyReplace_ne_token₂ a b c STAGE_DATA_TOKEN SOURCES_TOKEN s 'S' 'O' 'S' 'T' _ _
      hS hD (Or.inr (by decide)) hbrD ha hb hc]
    rw [pyReplace_hits₂ a b c STAGE_DATA_TOKEN d _ hD ha hb hc]
  · show pyReplace (pyReplace (pyReplace (pyReplace (pyReplace
        (a ++ TOOLS_TOKEN ++ b) INTRO_TOKEN i)
        TOOLS_TOKEN t) MUSCLES_TOKEN m) SOURCES_TOKEN s) STAGE_DATA_TOKEN d
      = a ++ t ++ b
    rw [pyReplace_ne_token₁ a b TOOLS_TOKEN INTRO_TOKEN i 'I' 'N' 'T' 'O' _ _
      hI hT (Or.inl (by decide)) hbrT ha hb]
    rw [pyReplace_hit₁ a b TOOLS_TOKEN t _ hT ha hb]
    have hfree : lbraceChar ∉ (a ++ t ++ b).data := by
      simp [String.data_append, List.mem_append, ha, hb, ht]
    rw [pyReplace_no_head _ MUSCLES_TOKEN m _ hM hfree,
        pyReplace_no_head _ SOURCES_TOKEN s _ hS hfree,
        pyReplace_no_head _ STAGE_DATA_TOKEN d _ hD hfree]

/-- Witness for C6 at a concrete input: brace-free surroundings `"x"`,
`"y"`, `"z"` and fragments `"I"`, `"T"`, `"M"`, `"S"`, `"D"`. -/
theorem assembler_global_token_substitution_witness :
    (lbraceChar ∉ ("x" : String).data) ∧
    (build_html ("x" ++ INTRO_TOKEN ++ "y" ++ INTRO_TOKEN ++ "z") "I" "T" "M" "S" "D"
        = "x" ++ "I" ++ "y" ++ "I" ++ "z") ∧
    (build_html ("x" ++ TOOLS_TOKEN ++ "y") "I" "T" "M" "S" "D" = "x" ++ "T" ++ "y") :=
  ⟨by decide,
    (assembler_global_token_substitution "x" "y" "z" "I" "T" "M" "S" "D"
      (by decide) (by decide) (by decide) (by decide) (by decide) (by decide)
      (by decide) (by decide)).1,
    (assembler_global_token_substitution "x" "y" "z" "I" "T" "M" "S" "D"
      (by decide) (by decide) (by decide) (by decide) (by decide) (by decide)
      (by decide) (by decide)).2.2.2.2.2⟩
